import Mathlib

/-!
# Verification of the fault-injection service (python-error-app)

Shallow embedding of `src/backend/src/containers/error-apps/python-error-app/app.py`.

The service is a Flask app whose core is `simulate_error`: per invocation it
increments a global `request_count`, possibly terminates the process
(`CRASH_AFTER`), appends a synthetic 10,000-element block to `memory_leak`
(`OOM_TRIGGER`), logs a random error with probability `ERROR_RATE` (raising an
exception when `ERROR_TYPE == "panic"`), and logs a fixed error line for four
specific `ERROR_TYPE` tags.

Modelling choices:
* The two sources of randomness (`random.random()` and `random.choice`) are
  passed in explicitly: a rational `draw` (the uniform value in `[0,1)`) and a
  `choice : Fin 10` index into `ERROR_MESSAGES`.
* `sys.exit(1)` is modelled by the outcome `crashed 1`; `raise Exception(msg)`
  by the outcome `panicked msg`. State mutations made before the exit/raise are
  visible in the returned state, as they are on the Python globals.
* Log lines are modelled as a constructor per logging call site, carrying the
  interpolated data; `LogMsg.level` and `LogMsg.render` recover the level and
  the exact message text of the source.
-/

namespace ErrorApp

/-- Log severity levels of Python's `logging` as used by the app. -/
inductive LogLevel
  | info
  | warning
  | error
  | critical
deriving DecidableEq, Repr

/-- One log line, identified by its call site in `app.py`, carrying the data
interpolated into the message. -/
inductive LogMsg
  | crash (count : Nat)
  | memLeak (items : Nat)
  | probErr (count : Nat) (msg : String)
  | importErr
  | dbErr
  | apiErr
  | diskFull
  | statusLog (count : Nat)
deriving DecidableEq, Repr

/-- The logging level used at each call site. -/
def LogMsg.level : LogMsg → LogLevel
  | .crash _ => .critical
  | .memLeak _ => .warning
  | .probErr _ _ => .error
  | .importErr => .error
  | .dbErr => .error
  | .apiErr => .error
  | .diskFull => .error
  | .statusLog _ => .info

/-- The exact message text each call site produces (the f-strings of the
source, with the interpolated values). -/
def LogMsg.render : LogMsg → String
  | .crash count => "💥 FATAL: Crash limit reached after " ++ toString count ++ " requests!"
  | .memLeak items => "⚠️  Memory leak: " ++ toString items ++ " items allocated"
  | .probErr count msg => "❌ ERROR [" ++ toString count ++ "]: " ++ msg
  | .importErr => "❌ ImportError: Failed to import required module \"database_connector\""
  | .dbErr => "❌ DatabaseError: Connection pool exhausted, max connections: 100"
  | .apiErr => "❌ APIError: Upstream service returned 503 Service Unavailable"
  | .diskFull => "❌ IOError: [Errno 28] No space left on device: \"/var/log/app.log\""
  | .statusLog count => "📈 Status: " ++ toString count ++ " requests processed"

/-- Is this log line the probabilistic-error line (`logging.error` inside the
`random.random() < ERROR_RATE` branch)? -/
def LogMsg.isProbErr : LogMsg → Bool
  | .probErr _ _ => true
  | _ => false

/-- Is this log line the memory-leak warning line? -/
def LogMsg.isMemLeak : LogMsg → Bool
  | .memLeak _ => true
  | _ => false

/-- The startup configuration, read once from the environment:
`ERROR_TYPE`, `ERROR_RATE`, `CRASH_AFTER`, `OOM_TRIGGER`. -/
structure Config where
  error_type : String
  error_rate : ℚ
  crash_after : ℤ
  oom_trigger : Bool
deriving DecidableEq, Repr

/-- The mutable process-wide state: the globals `request_count` and
`memory_leak` (a list of leaked blocks, each a list of integers). -/
structure EngineState where
  request_count : Nat
  memory_leak : List (List Nat)
deriving DecidableEq, Repr

/-- The state at process start: `request_count = 0`, `memory_leak = []`. -/
def initState : EngineState := ⟨0, []⟩

/-- How one engine invocation ends: `sys.exit(exitCode)`, an uncaught
`raise Exception(msg)`, or a normal return. -/
inductive Outcome
  | crashed (exitCode : Nat)
  | panicked (msg : String)
  | ok
deriving DecidableEq, Repr

/-- Did the invocation terminate the process? -/
def Outcome.isCrash : Outcome → Bool
  | .crashed _ => true
  | _ => false

/-- The result of one engine invocation: the state after all mutations that
were executed, the outcome, and the log lines emitted, in order. -/
structure InvocationResult where
  state : EngineState
  outcome : Outcome
  logs : List LogMsg
deriving DecidableEq, Repr

/-- The fixed catalog of 10 synthetic error strings (`ERROR_MESSAGES`). -/
def ERROR_MESSAGES : List String := [
  "DatabaseConnectionError: Unable to connect to PostgreSQL at db:5432",
  "RedisConnectionError: Connection refused to redis:6379",
  "TimeoutException: Request to external API timed out after 30s",
  "AuthenticationError: JWT token expired or invalid",
  "PermissionDenied: Insufficient permissions to access resource",
  "FileNotFoundError: Configuration file /etc/app/config.yaml not found",
  "NetworkError: Failed to resolve DNS for api.service.local",
  "ValueError: Invalid input format in request payload",
  "KeyError: Required field \"user_id\" missing from request",
  "ImportError: Module \"critical_dependency\" not found"
]

/-- The fixed-size block `[0] * 10000` appended to `memory_leak` by the
memory-leak simulation. -/
def leakBlock : List Nat := List.replicate 10000 0

/-- The trailing `# Specific error types` chain of `elif`s in
`simulate_error`: the fixed error line logged for the four specific
`ERROR_TYPE` tags, nothing for any other tag. -/
def fixedErrorLogs (error_type : String) : List LogMsg :=
  if error_type = "import-error" then [.importErr]
  else if error_type = "db-error" then [.dbErr]
  else if error_type = "api-error" then [.apiErr]
  else if error_type = "disk-full" then [.diskFull]
  else []

/-- The condition of the `# Crash after N requests` check of `simulate_error`,
evaluated on the state before the invocation (the check reads the already
incremented counter). -/
abbrev crashFires (cfg : Config) (s : EngineState) : Prop :=
  cfg.crash_after > 0 ∧ ((s.request_count + 1 : ℕ) : ℤ) ≥ cfg.crash_after

/-- The decision engine `simulate_error` of `app.py`, one invocation:
1. increment `request_count`;
2. if `CRASH_AFTER > 0 and request_count >= CRASH_AFTER`: log critical and
   `sys.exit(1)` — nothing further runs;
3. if `OOM_TRIGGER`: append `[0] * 10000` to `memory_leak`, and warn when the
   block count is a multiple of 10;
4. if `random.random() < ERROR_RATE`: log a random catalog message, and when
   `ERROR_TYPE == "panic"` raise it as an exception — the remaining step does
   not run in that case;
5. log the fixed line for the four specific `ERROR_TYPE` tags. -/
def simulate_error (cfg : Config) (s : EngineState) (draw : ℚ) (choice : Fin 10) :
    InvocationResult :=
  let count := s.request_count + 1
  let s1 : EngineState := { s with request_count := count }
  if cfg.crash_after > 0 ∧ ((count : ℕ) : ℤ) ≥ cfg.crash_after then
    { state := s1, outcome := .crashed 1, logs := [.crash count] }
  else
    let afterOom : EngineState × List LogMsg :=
      if cfg.oom_trigger then
        let ml := s1.memory_leak ++ [leakBlock]
        ({ s1 with memory_leak := ml },
          if ml.length % 10 == 0 then [.memLeak (ml.length * 10000)] else [])
      else (s1, [])
    let s2 := afterOom.1
    let oomLogs := afterOom.2
    if draw < cfg.error_rate then
      let error_msg := ERROR_MESSAGES.get choice
      let probLogs := oomLogs ++ [.probErr count error_msg]
      if cfg.error_type = "panic" then
        { state := s2, outcome := .panicked error_msg, logs := probLogs }
      else
        { state := s2, outcome := .ok, logs := probLogs ++ fixedErrorLogs cfg.error_type }
    else
      { state := s2, outcome := .ok, logs := oomLogs ++ fixedErrorLogs cfg.error_type }

/-- The JSON body of `GET /`. -/
structure IndexBody where
  message : String
  requests : Nat
  error_type : String
  error_rate : ℚ
deriving DecidableEq, Repr

/-- The `GET /` handler `index`: invoke the engine, then return 200 with the
status body. If the engine crashed the process there is no response; if it
raised, the exception propagates to Flask unhandled and no 200 body is
produced — both are modelled as `none`. -/
def index (cfg : Config) (s : EngineState) (draw : ℚ) (choice : Fin 10) :
    InvocationResult × Option (Nat × IndexBody) :=
  let r := simulate_error cfg s draw choice
  match r.outcome with
  | .ok => (r, some (200,
      ⟨"Python service running", r.state.request_count, cfg.error_type, cfg.error_rate⟩))
  | _ => (r, none)

/-- The JSON body of `GET /health`. -/
structure HealthBody where
  status : String
  error : Option String
  requests : Option Nat
deriving DecidableEq, Repr

/-- The `GET /health` handler: 500 when `ERROR_TYPE == "unhealthy"`, else 200.
It does not touch the engine state; the unchanged state is returned to make
that frame property statable. -/
def health (cfg : Config) (s : EngineState) : EngineState × Nat × HealthBody :=
  if cfg.error_type = "unhealthy" then
    (s, 500, ⟨"unhealthy", some "Service degraded", none⟩)
  else
    (s, 200, ⟨"healthy", none, some s.request_count⟩)

/-- The JSON body of `GET /ready`. -/
structure ReadyBody where
  ready : Bool
  reason : Option String
deriving DecidableEq, Repr

/-- The `GET /ready` handler: 503 when `ERROR_TYPE == "not-ready"`, else 200. -/
def ready (cfg : Config) (s : EngineState) : EngineState × Nat × ReadyBody :=
  if cfg.error_type = "not-ready" then
    (s, 503, ⟨false, some "Dependencies unavailable"⟩)
  else
    (s, 200, ⟨true, none⟩)

/-- The JSON body of `GET /metrics`. -/
structure MetricsBody where
  requests_total : Nat
  error_type : String
  timestamp : String
deriving DecidableEq, Repr

/-- The `GET /metrics` handler: reads the counter and the wall clock
(`datetime.now()`, passed in as `now`), emits no log, never calls
`simulate_error`, and returns 200. The unchanged state is returned to make the
frame property statable. -/
def metrics (cfg : Config) (s : EngineState) (now : String) :
    EngineState × List LogMsg × Nat × MetricsBody :=
  (s, [], 200, ⟨s.request_count, cfg.error_type, now⟩)

/-- One tick of `background_logger`: invoke the engine, then log the info
status line. When the engine exits or raises, the status line is not
reached. -/
def background_logger_tick (cfg : Config) (s : EngineState) (draw : ℚ)
    (choice : Fin 10) : InvocationResult :=
  let r := simulate_error cfg s draw choice
  match r.outcome with
  | .ok => { r with logs := r.logs ++ [.statusLog r.state.request_count] }
  | _ => r

/-- The configuration of the spec's concrete scenario:
`{error_type: "db-error", error_rate: 0, crash_after: 0, oom_trigger: false}`. -/
def dbCfg : Config := ⟨"db-error", 0, 0, false⟩

/-- One source of randomness per invocation: the uniform draw and the catalog
choice. -/
abbrev Rand := ℚ × Fin 10

/-- A sequence of engine invocations from a starting state. The process stops
at a crash (`sys.exit`), so later invocations do not happen; an invocation
that raises leaves the process alive and the sequence continues. Returns the
final state and the results of the invocations that actually ran. -/
def run (cfg : Config) : EngineState → List Rand → EngineState × List InvocationResult
  | s, [] => (s, [])
  | s, rc :: rest =>
    let r := simulate_error cfg s rc.1 rc.2
    if r.outcome.isCrash then (r.state, [r])
    else
      let t := run cfg r.state rest
      (t.1, r :: t.2)

/-! ## Step lemmas: one invocation of `simulate_error` -/

/-- The leaked block has 10,000 units. -/
theorem leakBlock_length : leakBlock.length = 10000 := by
  rw [leakBlock]
  exact List.length_replicate 10000 0

/-- When the crash check fires, the invocation is exactly: increment, critical
log, exit 1 — the memory-leak appendix and both error policies do not run. -/
theorem se_crash (cfg : Config) (s : EngineState) (d : ℚ) (c : Fin 10)
    (h : crashFires cfg s) :
    simulate_error cfg s d c =
      ⟨⟨s.request_count + 1, s.memory_leak⟩, .crashed 1,
        [.crash (s.request_count + 1)]⟩ := by
  simp only [simulate_error]
  rw [if_pos h]

/-- When the crash check does not fire, the state after the invocation is the
incremented counter and, when `oom_trigger` is set, one appended block. -/
theorem se_nocrash_state (cfg : Config) (s : EngineState) (d : ℚ) (c : Fin 10)
    (h : ¬ crashFires cfg s) :
    (simulate_error cfg s d c).state =
      ⟨s.request_count + 1,
        if cfg.oom_trigger then s.memory_leak ++ [leakBlock]
        else s.memory_leak⟩ := by
  simp only [simulate_error]
  rw [if_neg h]
  by_cases ho : cfg.oom_trigger <;> by_cases hd : d < cfg.error_rate <;>
    by_cases ht : cfg.error_type = "panic" <;> simp [ho, hd, ht]

/-- When the crash check does not fire, the outcome is a panic exactly when
the probabilistic draw succeeds and `error_type` is the panic tag, carrying
the chosen catalog message; otherwise a normal return. -/
theorem se_nocrash_outcome (cfg : Config) (s : EngineState) (d : ℚ) (c : Fin 10)
    (h : ¬ crashFires cfg s) :
    (simulate_error cfg s d c).outcome =
      if d < cfg.error_rate ∧ cfg.error_type = "panic" then
        .panicked (ERROR_MESSAGES.get c)
      else .ok := by
  simp only [simulate_error]
  rw [if_neg h]
  by_cases ho : cfg.oom_trigger <;> by_cases hd : d < cfg.error_rate <;>
    by_cases ht : cfg.error_type = "panic" <;> simp [ho, hd, ht]

/-- When the crash check does not fire, the log of the invocation is: the
possible memory-leak warning, then the possible probabilistic error line,
then (unless a panic was raised) the fixed `error_type` line. -/
theorem se_nocrash_logs (cfg : Config) (s : EngineState) (d : ℚ) (c : Fin 10)
    (h : ¬ crashFires cfg s) :
    (simulate_error cfg s d c).logs =
      (if cfg.oom_trigger then
        (if (s.memory_leak.length + 1) % 10 == 0 then
          [.memLeak ((s.memory_leak.length + 1) * 10000)] else [])
       else []) ++
      (if d < cfg.error_rate then
        [.probErr (s.request_count + 1) (ERROR_MESSAGES.get c)] else []) ++
      (if d < cfg.error_rate ∧ cfg.error_type = "panic" then []
       else fixedErrorLogs cfg.error_type) := by
  simp only [simulate_error]
  rw [if_neg h]
  by_cases ho : cfg.oom_trigger <;> by_cases hd : d < cfg.error_rate <;>
    by_cases ht : cfg.error_type = "panic" <;>
      by_cases hm : (s.memory_leak.length + 1) % 10 == 0 <;>
        simp [ho, hd, ht, hm, List.length_append]

/-- Every invocation increments the request counter by exactly one. -/
theorem se_count (cfg : Config) (s : EngineState) (d : ℚ) (c : Fin 10) :
    (simulate_error cfg s d c).state.request_count = s.request_count + 1 := by
  by_cases h : crashFires cfg s
  · rw [se_crash cfg s d c h]
  · rw [se_nocrash_state cfg s d c h]

/-- When the crash check does not fire, the invocation does not crash. -/
theorem se_nocrash_not_crash (cfg : Config) (s : EngineState) (d : ℚ) (c : Fin 10)
    (h : ¬ crashFires cfg s) :
    (simulate_error cfg s d c).outcome.isCrash = false := by
  rw [se_nocrash_outcome cfg s d c h]
  split <;> rfl

/-- Every fixed `error_type` line is logged at error level. -/
theorem fixedErrorLogs_level (t : String) :
    ∀ e ∈ fixedErrorLogs t, e.level = LogLevel.error := by
  intro e he
  unfold fixedErrorLogs at he
  repeat' split at he
  all_goals simp_all [LogMsg.level]

/-- No fixed `error_type` line is the probabilistic error line. -/
theorem fixedErrorLogs_countP_probErr (t : String) :
    (fixedErrorLogs t).countP LogMsg.isProbErr = 0 := by
  unfold fixedErrorLogs
  repeat' split
  all_goals rfl

/-- No fixed `error_type` line is the memory-leak warning line. -/
theorem fixedErrorLogs_countP_memLeak (t : String) :
    (fixedErrorLogs t).countP LogMsg.isMemLeak = 0 := by
  unfold fixedErrorLogs
  repeat' split
  all_goals rfl

/-- A non-crashing invocation never logs at critical level. -/
theorem se_nocrash_no_critical (cfg : Config) (s : EngineState) (d : ℚ) (c : Fin 10)
    (h : ¬ crashFires cfg s) :
    ∀ e ∈ (simulate_error cfg s d c).logs, e.level ≠ LogLevel.critical := by
  rw [se_nocrash_logs cfg s d c h]
  intro e he
  simp only [List.mem_append] at he
  rcases he with (he | he) | he
  · split at he
    · split at he
      · simp only [List.mem_singleton] at he
        subst he
        simp [LogMsg.level]
      · simp at he
    · simp at he
  · split at he
    · simp only [List.mem_singleton] at he
      subst he
      simp [LogMsg.level]
    · simp at he
  · split at he
    · simp at he
    · have := fixedErrorLogs_level cfg.error_type e he
      simp [this]

/-- The memory-leak warnings of a non-crashing invocation: one exactly when
the new block count is a multiple of 10, none otherwise. -/
theorem se_warn_count (cfg : Config) (s : EngineState) (d : ℚ) (c : Fin 10)
    (h : ¬ crashFires cfg s) :
    (simulate_error cfg s d c).logs.countP LogMsg.isMemLeak =
      if cfg.oom_trigger = true ∧ (s.memory_leak.length + 1) % 10 = 0 then 1
      else 0 := by
  rw [se_nocrash_logs cfg s d c h]
  by_cases ho : cfg.oom_trigger <;>
    by_cases hm : (s.memory_leak.length + 1) % 10 = 0 <;>
      by_cases hd : d < cfg.error_rate <;>
        by_cases ht : cfg.error_type = "panic" <;>
          simp [ho, hm, hd, ht, List.countP_append, List.countP_cons,
            LogMsg.isMemLeak, fixedErrorLogs_countP_memLeak]

/-! ## Run lemmas: sequences of invocations -/

/-- While the request counter stays strictly below the crash threshold (or the
crash policy is disabled), a run performs every invocation: none crashes, the
counter grows by the number of invocations, the leak grows by one block per
invocation when `oom_trigger` is set, and no critical line is logged. -/
theorem run_all_ok (cfg : Config) :
    ∀ (draws : List Rand) (s : EngineState),
      (0 < cfg.crash_after → ((s.request_count + draws.length : ℕ) : ℤ) < cfg.crash_after) →
      (run cfg s draws).1.request_count = s.request_count + draws.length ∧
      (run cfg s draws).1.memory_leak =
        (if cfg.oom_trigger then s.memory_leak ++ List.replicate draws.length leakBlock
         else s.memory_leak) ∧
      (run cfg s draws).2.length = draws.length ∧
      (∀ r ∈ (run cfg s draws).2, r.outcome.isCrash = false) ∧
      (∀ r ∈ (run cfg s draws).2, ∀ e ∈ r.logs, e.level ≠ LogLevel.critical)
  | [], s, _ => by
    refine ⟨rfl, ?_, rfl, by simp [run], by simp [run]⟩
    simp [run]
  | rc :: rest, s, hlt => by
    have hnc : ¬ crashFires cfg s := by
      intro hc
      have h2 := hlt hc.1
      have h3 := hc.2
      simp only [List.length_cons] at h2
      push_cast at h2 h3
      omega
    have hst := se_nocrash_state cfg s rc.1 rc.2 hnc
    have hout := se_nocrash_not_crash cfg s rc.1 rc.2 hnc
    have hcrit := se_nocrash_no_critical cfg s rc.1 rc.2 hnc
    have hlt' : 0 < cfg.crash_after →
        (((simulate_error cfg s rc.1 rc.2).state.request_count + rest.length : ℕ) : ℤ)
          < cfg.crash_after := by
      intro hpos
      have h2 := hlt hpos
      rw [se_count cfg s rc.1 rc.2]
      simp only [List.length_cons] at h2
      push_cast at h2 ⊢
      omega
    obtain ⟨ih1, ih2, ih3, ih4, ih5⟩ :=
      run_all_ok cfg rest (simulate_error cfg s rc.1 rc.2).state hlt'
    simp only [run, hout, Bool.false_eq_true, if_false]
    refine ⟨?_, ?_, ?_, ?_, ?_⟩
    · rw [ih1, se_count cfg s rc.1 rc.2]
      simp only [List.length_cons]
      omega
    · rw [ih2, hst]
      by_cases ho : cfg.oom_trigger <;>
        simp [ho, List.length_cons, List.replicate_succ, List.append_assoc]
    · simp [ih3]
    · intro r hr
      rcases List.mem_cons.mp hr with h | h
      · rw [h]; exact hout
      · exact ih4 r h
    · intro r hr
      rcases List.mem_cons.mp hr with h | h
      · rw [h]; exact hcrit
      · exact ih5 r h

/-- When no invocation of the first batch crashes, a run of the concatenation
is the run of the first batch followed by the run of the second from the
reached state. -/
theorem run_append (cfg : Config) :
    ∀ (a b : List Rand) (s : EngineState),
      (∀ r ∈ (run cfg s a).2, r.outcome.isCrash = false) →
      run cfg s (a ++ b) =
        ((run cfg (run cfg s a).1 b).1,
          (run cfg s a).2 ++ (run cfg (run cfg s a).1 b).2)
  | [], b, s, _ => by simp [run]
  | rc :: a, b, s, h => by
    by_cases hc : (simulate_error cfg s rc.1 rc.2).outcome.isCrash
    · exfalso
      have hm : simulate_error cfg s rc.1 rc.2 ∈ (run cfg s (rc :: a)).2 := by
        simp [run, hc]
      have := h _ hm
      rw [this] at hc
      exact Bool.false_ne_true hc
    · have hb : (simulate_error cfg s rc.1 rc.2).outcome.isCrash = false :=
        Bool.not_eq_true _ ▸ eq_false_of_ne_true hc
      have h' : ∀ r ∈ (run cfg (simulate_error cfg s rc.1 rc.2).state a).2,
          r.outcome.isCrash = false := by
        intro r hr
        apply h
        simp only [run, hb, Bool.false_eq_true, if_false, List.mem_cons]
        exact Or.inr hr
      have IH := run_append cfg a b (simulate_error cfg s rc.1 rc.2).state h'
      simp only [List.cons_append, run, hb, Bool.false_eq_true, if_false,
        List.append_eq, IH, List.mem_cons]

/-- Total number of memory-leak warnings over a crash-free run: the number of
multiples of 10 among the block counts reached, i.e. `(L + k) / 10 - L / 10`
for `k` invocations starting from `L` blocks (when `oom_trigger` is set). -/
theorem run_warn_count (cfg : Config) (ho : cfg.oom_trigger = true) :
    ∀ (draws : List Rand) (s : EngineState),
      (0 < cfg.crash_after → ((s.request_count + draws.length : ℕ) : ℤ) < cfg.crash_after) →
      ((run cfg s draws).2.map (fun r => r.logs.countP LogMsg.isMemLeak)).sum =
        (s.memory_leak.length + draws.length) / 10 - s.memory_leak.length / 10
  | [], s, _ => by simp [run]
  | rc :: rest, s, hlt => by
    have hnc : ¬ crashFires cfg s := by
      intro hc
      have h2 := hlt hc.1
      have h3 := hc.2
      simp only [List.length_cons] at h2
      push_cast at h2 h3
      omega
    have hst := se_nocrash_state cfg s rc.1 rc.2 hnc
    have hout := se_nocrash_not_crash cfg s rc.1 rc.2 hnc
    have hwc := se_warn_count cfg s rc.1 rc.2 hnc
    have hlt' : 0 < cfg.crash_after →
        (((simulate_error cfg s rc.1 rc.2).state.request_count + rest.length : ℕ) : ℤ)
          < cfg.crash_after := by
      intro hpos
      have h2 := hlt hpos
      rw [se_count cfg s rc.1 rc.2]
      simp only [List.length_cons] at h2
      push_cast at h2 ⊢
      omega
    have hlen : (simulate_error cfg s rc.1 rc.2).state.memory_leak.length =
        s.memory_leak.length + 1 := by
      rw [hst]
      simp [ho]
    have IH := run_warn_count cfg ho rest (simulate_error cfg s rc.1 rc.2).state hlt'
    simp only [run, hout, Bool.false_eq_true, if_false, List.map_cons,
      List.sum_cons, IH, hlen, hwc, ho, true_and, List.length_cons]
    by_cases hm : (s.memory_leak.length + 1) % 10 = 0 <;>
      simp only [hm, if_true, if_false, ite_true, ite_false] <;> omega

/-- The engine result of `GET /` is exactly the `simulate_error` result. -/
theorem index_fst (cfg : Config) (s : EngineState) (d : ℚ) (c : Fin 10) :
    (index cfg s d c).1 = simulate_error cfg s d c := by
  simp only [index]
  split <;> rfl

/-- A background tick leaves the engine's state exactly as `simulate_error`
does (the extra status line only adds a log). -/
theorem background_logger_tick_state (cfg : Config) (s : EngineState) (d : ℚ)
    (c : Fin 10) :
    (background_logger_tick cfg s d c).state = (simulate_error cfg s d c).state := by
  simp only [background_logger_tick]
  split <;> rfl

/-! ## Claim theorems -/

/-- C3: every engine invocation — whether reached through `GET /` or a
background tick, and whatever its outcome (crash, raised panic, or normal
return) — increases `request_count` by exactly 1, and the non-engine handlers
(`/metrics`, `/health`, `/ready`) never change the state at all. -/
theorem request_count_increment_invariant (cfg : Config) (s : EngineState)
    (d : ℚ) (c : Fin 10) (now : String) :
    (simulate_error cfg s d c).state.request_count = s.request_count + 1 ∧
    (index cfg s d c).1.state.request_count = s.request_count + 1 ∧
    (background_logger_tick cfg s d c).state.request_count = s.request_count + 1 ∧
    (metrics cfg s now).1 = s ∧
    (health cfg s).1 = s ∧
    (ready cfg s).1 = s := by
  refine ⟨se_count cfg s d c, ?_, ?_, rfl, ?_, ?_⟩
  · rw [index_fst]
    exact se_count cfg s d c
  · rw [background_logger_tick_state]
    exact se_count cfg s d c
  · unfold health
    split <;> rfl
  · unfold ready
    split <;> rfl

/-- C8: `GET /metrics` never invokes the engine: the state (both
`request_count` and `memory_leak`) is unchanged, no log line is emitted, and
the response is 200 with the current counter, the configured error type, and
the timestamp. -/
theorem metrics_is_pure (cfg : Config) (s : EngineState) (now : String) :
    (metrics cfg s now).1 = s ∧
    (metrics cfg s now).2.1 = [] ∧
    (metrics cfg s now).2.2.1 = 200 ∧
    (metrics cfg s now).2.2.2 = ⟨s.request_count, cfg.error_type, now⟩ :=
  ⟨rfl, rfl, rfl, rfl⟩

/-- C2: with `crash_after = 0` the crash policy is disabled: every requested
invocation runs (the process never self-terminates) and none crashes, from
any state and for any number of invocations. -/
theorem crash_disabled_never_terminates (cfg : Config) (h : cfg.crash_after = 0)
    (s : EngineState) (draws : List Rand) :
    (run cfg s draws).2.length = draws.length ∧
    ∀ r ∈ (run cfg s draws).2, r.outcome.isCrash = false := by
  have hlt : 0 < cfg.crash_after →
      ((s.request_count + draws.length : ℕ) : ℤ) < cfg.crash_after := by
    intro hpos
    rw [h] at hpos
    exact absurd hpos (by norm_num)
  obtain ⟨_, _, h3, h4, _⟩ := run_all_ok cfg draws s hlt
  exact ⟨h3, h4⟩

/-- Witness for C2 at a concrete configuration and one invocation. -/
theorem crash_disabled_never_terminates_witness :
    (⟨"none", 0, 0, false⟩ : Config).crash_after = 0 ∧
    ((run ⟨"none", 0, 0, false⟩ initState [((0 : ℚ), (0 : Fin 10))]).2.length =
        [((0 : ℚ), (0 : Fin 10))].length ∧
      ∀ r ∈ (run ⟨"none", 0, 0, false⟩ initState [((0 : ℚ), (0 : Fin 10))]).2,
        r.outcome.isCrash = false) :=
  ⟨rfl, crash_disabled_never_terminates _ rfl initState [((0 : ℚ), (0 : Fin 10))]⟩

/-- C10: for every `crash_after ≤ 0` (0 or negative) the crash policy is
disabled: from any state, every invocation runs, none terminates the process,
and no critical-level (fatal crash) line is ever logged. -/
theorem crash_nonpositive_disabled (cfg : Config) (h : cfg.crash_after ≤ 0)
    (s : EngineState) (draws : List Rand) :
    (run cfg s draws).2.length = draws.length ∧
    (∀ r ∈ (run cfg s draws).2, r.outcome.isCrash = false) ∧
    (∀ r ∈ (run cfg s draws).2, ∀ e ∈ r.logs, e.level ≠ LogLevel.critical) := by
  have hlt : 0 < cfg.crash_after →
      ((s.request_count + draws.length : ℕ) : ℤ) < cfg.crash_after := by
    intro hpos
    omega
  obtain ⟨_, _, h3, h4, h5⟩ := run_all_ok cfg draws s hlt
  exact ⟨h3, h4, h5⟩

/-- Witness for C10 at a concrete negative `crash_after`. -/
theorem crash_nonpositive_disabled_witness :
    (⟨"none", 0, -3, false⟩ : Config).crash_after ≤ 0 ∧
    ((run ⟨"none", 0, -3, false⟩ initState [((0 : ℚ), (0 : Fin 10))]).2.length =
        [((0 : ℚ), (0 : Fin 10))].length ∧
      (∀ r ∈ (run ⟨"none", 0, -3, false⟩ initState [((0 : ℚ), (0 : Fin 10))]).2,
        r.outcome.isCrash = false) ∧
      (∀ r ∈ (run ⟨"none", 0, -3, false⟩ initState [((0 : ℚ), (0 : Fin 10))]).2,
        ∀ e ∈ r.logs, e.level ≠ LogLevel.critical)) :=
  ⟨by norm_num,
    crash_nonpositive_disabled _ (by norm_num) initState [((0 : ℚ), (0 : Fin 10))]⟩

/-- C9: when an invocation ends by raising the panic exception, the mutations
already made persist: the counter is incremented and, when `oom_trigger` is
set, the block appended in that invocation stays in `memory_leak` — the raise
does not roll back state. -/
theorem panic_state_persists (cfg : Config) (s : EngineState) (d : ℚ)
    (c : Fin 10) (m : String)
    (h : (simulate_error cfg s d c).outcome = .panicked m) :
    (simulate_error cfg s d c).state.request_count = s.request_count + 1 ∧
    (simulate_error cfg s d c).state.memory_leak =
      (if cfg.oom_trigger then s.memory_leak ++ [leakBlock]
       else s.memory_leak) := by
  by_cases hc : crashFires cfg s
  · rw [se_crash cfg s d c hc] at h
    exact absurd h (by simp)
  · exact ⟨se_count cfg s d c, by rw [se_nocrash_state cfg s d c hc]⟩

/-- Witness for C9 at a concrete panic configuration with the leak enabled. -/
theorem panic_state_persists_witness :
    (simulate_error ⟨"panic", 1, 0, true⟩ initState 0 0).outcome =
        .panicked (ERROR_MESSAGES.get (0 : Fin 10)) ∧
    ((simulate_error ⟨"panic", 1, 0, true⟩ initState 0 0).state.request_count =
        initState.request_count + 1 ∧
      (simulate_error ⟨"panic", 1, 0, true⟩ initState 0 0).state.memory_leak =
        (if (⟨"panic", 1, 0, true⟩ : Config).oom_trigger then
          initState.memory_leak ++ [leakBlock]
         else initState.memory_leak)) := by
  have h : (simulate_error ⟨"panic", 1, 0, true⟩ initState 0 0).outcome =
      .panicked (ERROR_MESSAGES.get (0 : Fin 10)) := by
    rw [se_nocrash_outcome _ _ _ _ (fun hc => absurd hc.1 (by decide))]
    rw [if_pos ⟨by decide, rfl⟩]
  exact ⟨h, panic_state_persists _ _ _ _ _ h⟩

/-- C1: with `crash_after = N > 0` and at least `N` invocations issued from
the initial state, the run terminates exactly at the `N`th invocation: the
first `N - 1` invocations do not crash, the `N`th emits exactly the single
critical-level fatal line and exits with code 1 (non-zero), nothing runs
after the crash check on that invocation (its state still has the
`memory_leak` of the previous invocation, with `N - 1` blocks when
`oom_trigger` is set), and no invocation after the `N`th happens. -/
theorem crash_policy_fires_exactly_at_threshold (cfg : Config) (N : ℕ)
    (draws : List Rand) (hca : cfg.crash_after = (N : ℤ)) (hN : 0 < N)
    (hlen : N ≤ draws.length) :
    ∃ pre : List InvocationResult,
      (run cfg initState draws).2 =
        pre ++ [⟨⟨N, if cfg.oom_trigger then List.replicate (N - 1) leakBlock
            else []⟩, .crashed 1, [.crash N]⟩] ∧
      pre.length = N - 1 ∧
      (∀ r ∈ pre, r.outcome.isCrash = false) ∧
      (LogMsg.crash N).level = LogLevel.critical := by
  have hab : draws.take (N - 1) ++ draws.drop (N - 1) = draws :=
    List.take_append_drop _ _
  have hlena : (draws.take (N - 1)).length = N - 1 := by
    rw [List.length_take]
    omega
  have hlt : 0 < cfg.crash_after →
      ((initState.request_count + (draws.take (N - 1)).length : ℕ) : ℤ)
        < cfg.crash_after := by
    intro _
    rw [hca, hlena]
    show ((0 + (N - 1) : ℕ) : ℤ) < (N : ℤ)
    push_cast
    omega
  obtain ⟨h1, h2, _h3, h4, _h5⟩ := run_all_ok cfg (draws.take (N - 1)) initState hlt
  have hs1 : (run cfg initState (draws.take (N - 1))).1.request_count = N - 1 := by
    rw [h1, hlena]
    simp [initState]
  have hs2 : (run cfg initState (draws.take (N - 1))).1.memory_leak =
      (if cfg.oom_trigger then List.replicate (N - 1) leakBlock else []) := by
    rw [h2, hlena]
    by_cases ho : cfg.oom_trigger <;> simp [ho, initState]
  have hbne : draws.drop (N - 1) ≠ [] := by
    intro hb
    have := List.length_drop (N - 1) draws
    rw [hb] at this
    simp at this
    omega
  obtain ⟨rc, rest, hbe⟩ := List.exists_cons_of_ne_nil hbne
  have hcf : crashFires cfg (run cfg initState (draws.take (N - 1))).1 := by
    constructor
    · rw [hca]
      exact_mod_cast hN
    · rw [hca, hs1]
      push_cast
      omega
  have hcr := se_crash cfg (run cfg initState (draws.take (N - 1))).1 rc.1 rc.2 hcf
  have hrunb : run cfg (run cfg initState (draws.take (N - 1))).1 (draws.drop (N - 1)) =
      ((⟨⟨N, if cfg.oom_trigger then List.replicate (N - 1) leakBlock else []⟩,
          .crashed 1, [.crash N]⟩ : InvocationResult).state,
        [⟨⟨N, if cfg.oom_trigger then List.replicate (N - 1) leakBlock else []⟩,
          .crashed 1, [.crash N]⟩]) := by
    rw [hbe]
    simp only [run, hcr]
    have hcount : (run cfg initState (draws.take (N - 1))).1.request_count + 1 = N := by
      rw [hs1]
      omega
    simp [Outcome.isCrash, hcount, hs2]
  have happ := run_append cfg (draws.take (N - 1)) (draws.drop (N - 1)) initState h4
  rw [hab, hrunb] at happ
  refine ⟨(run cfg initState (draws.take (N - 1))).2, ?_, ?_, h4, rfl⟩
  · rw [happ]
  · rw [_h3, hlena]

/-- Witness for C1: `crash_after = 2`, two invocations, leak enabled. -/
theorem crash_policy_fires_exactly_at_threshold_witness :
    (⟨"none", 0, 2, true⟩ : Config).crash_after = ((2 : ℕ) : ℤ) ∧ 0 < 2 ∧
    2 ≤ [((0 : ℚ), (0 : Fin 10)), ((0 : ℚ), (0 : Fin 10))].length ∧
    ∃ pre : List InvocationResult,
      (run ⟨"none", 0, 2, true⟩ initState
          [((0 : ℚ), (0 : Fin 10)), ((0 : ℚ), (0 : Fin 10))]).2 =
        pre ++ [⟨⟨2, if (⟨"none", 0, 2, true⟩ : Config).oom_trigger then
            List.replicate (2 - 1) leakBlock else []⟩, .crashed 1, [.crash 2]⟩] ∧
      pre.length = 2 - 1 ∧
      (∀ r ∈ pre, r.outcome.isCrash = false) ∧
      (LogMsg.crash 2).level = LogLevel.critical :=
  ⟨rfl, by norm_num, by norm_num,
    crash_policy_fires_exactly_at_threshold _ 2 _ rfl (by norm_num) (by norm_num)⟩

/-- C4 counterexample: at `error_rate = 1` with `crash_after = 1`, the first
invocation (uniform draw 0, a valid value in [0,1)) crashes before the
probabilistic policy and emits zero probabilistic error lines — the claim
that `error_rate = 1` yields exactly one such line on every invocation fails
as stated. -/
theorem prob_rate_one_crash_counterexample :
    (⟨"none", 1, 1, false⟩ : Config).error_rate = 1 ∧
    (0 : ℚ) ≤ 0 ∧ (0 : ℚ) < 1 ∧
    (simulate_error ⟨"none", 1, 1, false⟩ initState 0 0).logs.countP
      LogMsg.isProbErr = 0 := by
  refine ⟨rfl, le_refl 0, by norm_num, ?_⟩
  rw [se_crash _ _ _ _ ⟨by decide, by decide⟩]
  rfl

/-- C4 (amended): for `error_rate = 0` the probabilistic policy never fires —
no probabilistic error line on any invocation, for any valid draw; for
`error_rate = 1` every invocation on which the crash policy does not fire
emits exactly one probabilistic error line. -/
theorem prob_policy_rate_extremes (cfg : Config) (s : EngineState) (d : ℚ)
    (c : Fin 10) (hd : 0 ≤ d) :
    (cfg.error_rate = 0 →
      (simulate_error cfg s d c).logs.countP LogMsg.isProbErr = 0) ∧
    (cfg.error_rate = 1 → d < 1 → ¬ crashFires cfg s →
      (simulate_error cfg s d c).logs.countP LogMsg.isProbErr = 1) := by
  constructor
  · intro h0
    by_cases hc : crashFires cfg s
    · rw [se_crash cfg s d c hc]
      rfl
    · rw [se_nocrash_logs cfg s d c hc]
      have hdn : ¬ d < cfg.error_rate := by
        rw [h0]
        exact not_lt.mpr hd
      by_cases ho : cfg.oom_trigger <;>
        by_cases hm : ((s.memory_leak.length + 1) % 10 == 0) <;>
          simp [hdn, ho, hm, List.countP_append, List.countP_cons,
            LogMsg.isProbErr, fixedErrorLogs_countP_probErr]
  · intro h1 hd1 hc
    rw [se_nocrash_logs cfg s d c hc]
    have hdy : d < cfg.error_rate := by
      rw [h1]
      exact hd1
    by_cases ht : cfg.error_type = "panic" <;>
      by_cases ho : cfg.oom_trigger <;>
        by_cases hm : ((s.memory_leak.length + 1) % 10 == 0) <;>
          simp [hdy, ht, ho, hm, List.countP_append, List.countP_cons,
            LogMsg.isProbErr, fixedErrorLogs_countP_probErr]

/-- Witness for the amended C4 at concrete configurations: rate 0 yields no
probabilistic line, rate 1 (crash disabled) yields exactly one. -/
theorem prob_policy_rate_extremes_witness :
    (simulate_error ⟨"none", 0, 0, false⟩ initState 0 0).logs.countP
        LogMsg.isProbErr = 0 ∧
    (simulate_error ⟨"none", 1, 0, false⟩ initState 0 0).logs.countP
        LogMsg.isProbErr = 1 :=
  ⟨(prob_policy_rate_extremes _ initState 0 0 (le_refl 0)).1 rfl,
    (prob_policy_rate_extremes _ initState 0 0 (le_refl 0)).2 rfl (by norm_num)
      (fun hc => absurd hc.1 (by decide))⟩

/-- C5 counterexample: with `error_type = "panic"`, `error_rate = 1` and
`crash_after = 1`, the first invocation satisfies "draw below `error_rate`
and `error_type` is panic" (draw 0 < 1), yet the engine does not raise: the
crash policy fires first and the invocation terminates the process. -/
theorem panic_crash_priority_counterexample :
    (0 : ℚ) < (⟨"panic", 1, 1, false⟩ : Config).error_rate ∧
    (⟨"panic", 1, 1, false⟩ : Config).error_type = "panic" ∧
    (simulate_error ⟨"panic", 1, 1, false⟩ initState 0 0).outcome =
      .crashed 1 := by
  refine ⟨by norm_num, rfl, ?_⟩
  rw [se_crash _ _ _ _ ⟨by decide, by decide⟩]

/-- C5 (amended): on any invocation where the crash policy does not fire, the
draw is below `error_rate`, and `error_type` is the panic tag, the engine
raises the in-process exception carrying the randomly selected catalog
message; the outcome is not a process termination, and the exception
propagates out of `GET /` unhandled (no 200 response is produced). -/
theorem panic_policy_raises (cfg : Config) (s : EngineState) (d : ℚ)
    (c : Fin 10) (hnc : ¬ crashFires cfg s) (hd : d < cfg.error_rate)
    (ht : cfg.error_type = "panic") :
    (simulate_error cfg s d c).outcome = .panicked (ERROR_MESSAGES.get c) ∧
    (∀ k, (simulate_error cfg s d c).outcome ≠ .crashed k) ∧
    (index cfg s d c).2 = none := by
  have ho := se_nocrash_outcome cfg s d c hnc
  rw [if_pos ⟨hd, ht⟩] at ho
  refine ⟨ho, ?_, ?_⟩
  · intro k hk
    rw [ho] at hk
    exact Outcome.noConfusion hk
  · simp only [index, ho]

/-- Witness for the amended C5 at a concrete panic configuration. -/
theorem panic_policy_raises_witness :
    (simulate_error ⟨"panic", 1, 0, false⟩ initState 0 0).outcome =
        .panicked (ERROR_MESSAGES.get (0 : Fin 10)) ∧
    (∀ k, (simulate_error ⟨"panic", 1, 0, false⟩ initState 0 0).outcome ≠
        .crashed k) ∧
    (index ⟨"panic", 1, 0, false⟩ initState 0 0).2 = none :=
  panic_policy_raises _ initState 0 0 (fun hc => absurd hc.1 (by decide))
    (by norm_num) rfl

/-- C6: with the leak enabled and the crash policy not firing, every
invocation appends exactly one 10,000-unit block, warning exactly when the
new block count is a multiple of 10; and any 10 invocations from the initial
state leave 10 blocks (100,000 units in total) and exactly one warning
line. -/
theorem oom_leak_growth (cfg : Config) (ho : cfg.oom_trigger = true) :
    (∀ (s : EngineState) (d : ℚ) (c : Fin 10), ¬ crashFires cfg s →
      (simulate_error cfg s d c).state.memory_leak = s.memory_leak ++ [leakBlock] ∧
      leakBlock.length = 10000 ∧
      (simulate_error cfg s d c).logs.countP LogMsg.isMemLeak =
        (if (s.memory_leak.length + 1) % 10 = 0 then 1 else 0)) ∧
    (∀ draws : List Rand, (0 < cfg.crash_after → (10 : ℤ) < cfg.crash_after) →
      draws.length = 10 →
      (run cfg initState draws).1.memory_leak = List.replicate 10 leakBlock ∧
      ((run cfg initState draws).1.memory_leak.map List.length).sum = 100000 ∧
      ((run cfg initState draws).2.map
        (fun r => r.logs.countP LogMsg.isMemLeak)).sum = 1) := by
  constructor
  · intro s d c hnc
    refine ⟨?_, leakBlock_length, ?_⟩
    · rw [se_nocrash_state cfg s d c hnc]
      simp [ho]
    · rw [se_warn_count cfg s d c hnc]
      simp [ho]
  · intro draws hca hlen
    have hlt : 0 < cfg.crash_after →
        ((initState.request_count + draws.length : ℕ) : ℤ) < cfg.crash_after := by
      intro hpos
      have h10 := hca hpos
      rw [hlen]
      show ((0 + 10 : ℕ) : ℤ) < cfg.crash_after
      push_cast
      omega
    obtain ⟨_, h2, _, _, _⟩ := run_all_ok cfg draws initState hlt
    have hleak : (run cfg initState draws).1.memory_leak =
        List.replicate 10 leakBlock := by
      rw [h2]
      simp [ho, initState, hlen]
    refine ⟨hleak, ?_, ?_⟩
    · rw [hleak]
      simp [List.map_replicate, List.sum_replicate, leakBlock_length]
    · rw [run_warn_count cfg ho draws initState hlt]
      simp [initState, hlen]

/-- Witness for C6: the concrete leak configuration, one invocation and a
10-invocation run. -/
theorem oom_leak_growth_witness :
    ((simulate_error ⟨"none", 0, 0, true⟩ initState 0 0).state.memory_leak =
        initState.memory_leak ++ [leakBlock] ∧
      leakBlock.length = 10000 ∧
      (simulate_error ⟨"none", 0, 0, true⟩ initState 0 0).logs.countP
          LogMsg.isMemLeak =
        (if (initState.memory_leak.length + 1) % 10 = 0 then 1 else 0)) ∧
    ((run ⟨"none", 0, 0, true⟩ initState
          (List.replicate 10 ((0 : ℚ), (0 : Fin 10)))).1.memory_leak =
        List.replicate 10 leakBlock ∧
      ((run ⟨"none", 0, 0, true⟩ initState
          (List.replicate 10 ((0 : ℚ), (0 : Fin 10)))).1.memory_leak.map
            List.length).sum = 100000 ∧
      ((run ⟨"none", 0, 0, true⟩ initState
          (List.replicate 10 ((0 : ℚ), (0 : Fin 10)))).2.map
            (fun r => r.logs.countP LogMsg.isMemLeak)).sum = 1) := by
  have h := oom_leak_growth ⟨"none", 0, 0, true⟩ rfl
  exact ⟨h.1 initState 0 0 (fun hc => absurd hc.1 (by decide)),
    h.2 (List.replicate 10 ((0 : ℚ), (0 : Fin 10)))
      (fun hp => absurd hp (by decide)) (by simp)⟩

/-- Under the scenario configuration, one invocation is exactly: increment the
counter, emit the single fixed db-error line, return normally. -/
theorem se_dbzero (s : EngineState) (d : ℚ) (c : Fin 10) (hd : 0 ≤ d) :
    simulate_error dbCfg s d c =
      ⟨⟨s.request_count + 1, s.memory_leak⟩, .ok, [.dbErr]⟩ := by
  have hnc : ¬ crashFires dbCfg s := fun hc => absurd hc.1 (by decide)
  have hd' : ¬ d < dbCfg.error_rate := by
    show ¬ d < 0
    exact not_lt.mpr hd
  have hst := se_nocrash_state dbCfg s d c hnc
  have hou := se_nocrash_outcome dbCfg s d c hnc
  have hlo := se_nocrash_logs dbCfg s d c hnc
  calc simulate_error dbCfg s d c
      = ⟨(simulate_error dbCfg s d c).state, (simulate_error dbCfg s d c).outcome,
          (simulate_error dbCfg s d c).logs⟩ := rfl
    _ = ⟨⟨s.request_count + 1, s.memory_leak⟩, .ok, [.dbErr]⟩ := by
        rw [hst, hou, hlo]
        simp [dbCfg, hd', hd, fixedErrorLogs]

/-- Under the scenario configuration, `GET /` responds 200 with the
incremented counter. -/
theorem index_dbzero (s : EngineState) (d : ℚ) (c : Fin 10) (hd : 0 ≤ d) :
    index dbCfg s d c =
      (⟨⟨s.request_count + 1, s.memory_leak⟩, .ok, [.dbErr]⟩,
        some (200, ⟨"Python service running", s.request_count + 1,
          "db-error", 0⟩)) := by
  simp only [index, se_dbzero s d c hd]
  simp [dbCfg]

/-- C7: under `{error_type: "db-error", error_rate: 0, crash_after: 0,
oom_trigger: false}`, three successive `GET /` requests from the initial
state each emit exactly the fixed db-error line, leave `request_count = 3`,
and the third response is 200 with body
`{"message": "Python service running", "requests": 3,
"error_type": "db-error", "error_rate": 0}`. -/
theorem db_error_three_requests (d1 d2 d3 : ℚ) (c1 c2 c3 : Fin 10)
    (h1 : 0 ≤ d1) (h2 : 0 ≤ d2) (h3 : 0 ≤ d3) :
    (index dbCfg initState d1 c1).1.logs = [.dbErr] ∧
    (index dbCfg (index dbCfg initState d1 c1).1.state d2 c2).1.logs =
      [.dbErr] ∧
    (index dbCfg (index dbCfg (index dbCfg initState d1 c1).1.state d2 c2).1.state
        d3 c3).1.logs = [.dbErr] ∧
    (index dbCfg (index dbCfg (index dbCfg initState d1 c1).1.state d2 c2).1.state
        d3 c3).1.state.request_count = 3 ∧
    (index dbCfg (index dbCfg (index dbCfg initState d1 c1).1.state d2 c2).1.state
        d3 c3).2 =
      some (200, ⟨"Python service running", 3, "db-error", 0⟩) := by
  rw [index_dbzero initState d1 c1 h1]
  rw [index_dbzero _ d2 c2 h2]
  rw [index_dbzero _ d3 c3 h3]
  simp [initState]

/-- Witness for C7 at concrete draws. -/
theorem db_error_three_requests_witness :
    (index dbCfg initState 0 0).1.logs = [.dbErr] ∧
    (index dbCfg (index dbCfg initState 0 0).1.state 0 0).1.logs = [.dbErr] ∧
    (index dbCfg (index dbCfg (index dbCfg initState 0 0).1.state 0 0).1.state
        0 0).1.logs = [.dbErr] ∧
    (index dbCfg (index dbCfg (index dbCfg initState 0 0).1.state 0 0).1.state
        0 0).1.state.request_count = 3 ∧
    (index dbCfg (index dbCfg (index dbCfg initState 0 0).1.state 0 0).1.state
        0 0).2 =
      some (200, ⟨"Python service running", 3, "db-error", 0⟩) :=
  db_error_three_requests 0 0 0 0 0 0 (le_refl 0) (le_refl 0) (le_refl 0)

end ErrorApp
